import Mathlib

/-!
Shallow embedding of the `max_notify` Home Assistant custom integration
(files `const.py`, `notify.py`, `config_flow.py`) and proofs about its
send handler and setup wizard.

Conventions of the embedding:
* Python `None` becomes `Option.none`; a missing dictionary key becomes `none`.
* Python truthiness on optional strings (`if token:`) is `pyTruthyStrOpt`.
* The HTTP layer is modelled by an `HttpOutcome` value supplied to the
  handler: either a delivered response (status + body), an
  `aiohttp.ClientError`, or any other exception.
* Logging is modelled as a list of `LogEntry` values; exceptions are
  modelled with `Except PyError`.
* `int(...)` on an already-stripped string is `pyInt` (sign, ASCII decimal
  digits, underscores between digits, as in the CPython grammar).
-/

namespace MaxNotify

/-! ## Constants, from `const.py` -/

def API_BASE_URL : String := "https://platform-api.max.ru"

def API_PATH_ME : String := "/me"

def API_PATH_MESSAGES : String := "/messages"

def API_VERSION : String := "1.2.5"

def RECIPIENT_TYPE_USER : String := "user"

def RECIPIENT_TYPE_CHAT : String := "chat"

/-- `MAX_MESSAGE_LENGTH = 4000` from `notify.py`. -/
def MAX_MESSAGE_LENGTH : Nat := 4000

/-! ## Python helpers -/

/-- Python truthiness of an optional string: `None` and `""` are falsy. -/
def pyTruthyStrOpt : Option String → Bool
  | none => false
  | some s => s ≠ ""

/-- The ASCII characters Python `str.strip()` removes. -/
def isPySpace (c : Char) : Bool :=
  c = ' ' || c = '\t' || c = '\n' || c = '\x0d' || c = '\x0b' || c = '\x0c'

/-- Python `s.strip()`: drop leading and trailing whitespace. -/
def pyStrip (s : String) : String :=
  String.mk (((s.data.dropWhile isPySpace).reverse.dropWhile isPySpace).reverse)

/-- Does `l` start with `pat` (Python `l[:len(pat)] == pat`). -/
def listStartsWith : List Char → List Char → Bool
  | _, [] => true
  | [], _ :: _ => false
  | c :: cs, p :: ps => c = p && listStartsWith cs ps

/-- Does `pat` occur as a contiguous run inside `l`. -/
def listContainsAux : List Char → List Char → Bool
  | [], pat => listStartsWith [] pat
  | c :: cs, pat => listStartsWith (c :: cs) pat || listContainsAux cs pat

/-- Python `pat in s` for strings. -/
def strContains (s pat : String) : Bool := listContainsAux s.data pat.data

/-- Is `c` an ASCII decimal digit. -/
def isAsciiDigit (c : Char) : Bool := '0' ≤ c && c ≤ '9'

/-- Numeric value of an ASCII digit character. -/
def digitVal (c : Char) : Nat := c.toNat - '0'.toNat

/-- Continue parsing a CPython `digitpart` after at least one digit:
digits may be separated by single underscores, and the part must end
with a digit. -/
def pyDigitsAux (acc : Nat) : List Char → Option Nat
  | [] => some acc
  | c :: rest =>
      if c = '_' then
        match rest with
        | [] => none
        | c2 :: rest2 =>
          if isAsciiDigit c2 then pyDigitsAux (10 * acc + digitVal c2) rest2 else none
      else if isAsciiDigit c then pyDigitsAux (10 * acc + digitVal c) rest else none

/-- Parse a CPython `digitpart` (nonempty, must start with a digit). -/
def pyDigitpart : List Char → Option Nat
  | [] => none
  | c :: rest =>
      if isAsciiDigit c then pyDigitsAux (digitVal c) rest else none

/-- Model of CPython `int(s)` applied to an already-stripped string:
optional sign followed by a decimal `digitpart`; `none` models the
`ValueError` raised on any other input. -/
def pyInt (s : String) : Option Int :=
  match s.data with
  | [] => none
  | c :: rest =>
    if c = '+' then (pyDigitpart rest).map (fun n => (n : Int))
    else if c = '-' then (pyDigitpart rest).map (fun n => -(n : Int))
    else (pyDigitpart (c :: rest)).map (fun n => (n : Int))

/-- Python `opt is not None and int(opt) != 0` for an optional integer. -/
def nonzeroIntOpt : Option Int → Bool
  | none => false
  | some n => n ≠ 0

/-- Decimal digits of `n`, least significant first, with explicit fuel
(`fuel ≥ n` is always enough since the argument is divided by ten). -/
def natToDigitsRevAux : Nat → Nat → List Char
  | 0, _ => []
  | _ + 1, 0 => []
  | fuel + 1, n + 1 => Nat.digitChar ((n + 1) % 10) :: natToDigitsRevAux fuel ((n + 1) / 10)

/-- Decimal digits of `n`, least significant first (empty for zero). -/
def natToDigitsRev (n : Nat) : List Char := natToDigitsRevAux n n

/-- Python `str(n)` for a natural number. -/
def pyStrNat (n : Nat) : String :=
  if n = 0 then "0" else String.mk (natToDigitsRev n).reverse

/-- Python `str(v)` for an integer. -/
def pyStrInt (v : Int) : String :=
  if v < 0 then "-" ++ pyStrNat v.natAbs else pyStrNat v.toNat

/-! ## Data model -/

/-- The data dictionary of a config entry as this integration writes and
reads it: `access_token`, `recipient_type`, and `user_id` or `chat_id`.
A `none` field models an absent key (or a stored `None`). -/
structure EntryData where
  access_token : Option String
  recipient_type : Option String
  user_id : Option Int
  chat_id : Option Int
deriving DecidableEq, Repr

/-- Outcome of one HTTP request attempt, supplied by the environment:
a delivered response, an `aiohttp.ClientError`, or any other exception. -/
inductive HttpOutcome where
  | response (status : Nat) (body : String)
  | clientError (msg : String)
  | otherExc (msg : String)
deriving DecidableEq, Repr

/-- A Python exception escaping a block of the embedded code. -/
inductive PyError where
  | clientError (msg : String)
  | unexpected (msg : String)
deriving DecidableEq, Repr

/-- Log lines emitted by `notify.py`. -/
inductive LogEntry where
  | debugPreparing (title : String) (msgLen : Nat)
  | truncWarning (fromLen toLen : Nat)
  | noTokenError
  | debugRecipientUser (uid : Int)
  | debugRecipientChat (cid : Int)
  | noRecipientError (uid cid : Option Int)
  | debugRequest (url : String) (bodyLen : Nat)
  | sendFailedError (status : Nat) (body : String) (url : String)
  | startDialogHint
  | sentInfo (status : Nat)
  | requestFailedError (msg : String)
  | unexpectedError (msg : String)
deriving DecidableEq, Repr

/-- The outgoing POST request: URL (with query string), headers, and the
key/value pairs of the JSON object body. -/
structure Request where
  url : String
  headers : List (String × String)
  payload : List (String × String)
deriving DecidableEq, Repr

/-- What one call of the send handler did: the log lines it emitted and
the request it attempted (`none` when it returned before any HTTP). -/
structure SendResult where
  log : List LogEntry
  request : Option Request
deriving DecidableEq, Repr

/-! ## Send handler, from `notify.py` -/

/-- Line 65: `text = f"(title)\n(message)" if title else message`.
Python truthiness makes both a `None` title and an empty title fall to
the message-only branch. -/
def composeText (message : String) : Option String → String
  | some t => if t = "" then message else t ++ "\n" ++ message
  | none => message

/-- Lines 110-124 of `notify.py`: the body of the `try` block once the
response context is entered, as a function of the outcome.  A client
error or unexpected exception is thrown to the surrounding handlers. -/
def send_try_block (url : String) (o : HttpOutcome) : Except PyError (List LogEntry) :=
  match o with
  | .response s b =>
      if 400 ≤ s then
        .ok ([.sendFailedError s (b.take 500) url] ++
          (if s = 403 ∧ strContains b "chatId" ∧ strContains url "user_id=" then
            [.startDialogHint] else []))
      else .ok [.sentInfo s]
  | .clientError m => .error (.clientError m)
  | .otherExc m => .error (.unexpected m)

/-- `MaxNotifyEntity.async_send_message` (lines 63-128 of `notify.py`).
The result is always `.ok` because the two `except` clauses catch every
modelled exception; the `Except` type records that an exception could
only escape if some branch produced `.error`. -/
def async_send_message (e : EntryData) (message : String) (title : Option String)
    (o : HttpOutcome) : Except PyError SendResult :=
  let text0 := composeText message title
  let log0 : List LogEntry :=
    [.debugPreparing (if pyTruthyStrOpt title then title.getD "" else "(none)") message.length]
  let text := if MAX_MESSAGE_LENGTH < text0.length then text0.take MAX_MESSAGE_LENGTH else text0
  let log1 := if MAX_MESSAGE_LENGTH < text0.length then
      log0 ++ [.truncWarning text0.length MAX_MESSAGE_LENGTH] else log0
  if pyTruthyStrOpt e.access_token = false then
    .ok ⟨log1 ++ [.noTokenError], none⟩
  else
    let token := e.access_token.getD ""
    let chosen : Option (String × LogEntry) :=
      if nonzeroIntOpt e.user_id then
        let u := e.user_id.getD 0
        some (API_BASE_URL ++ API_PATH_MESSAGES ++ "?user_id=" ++ pyStrInt u ++ "&v=" ++ API_VERSION,
          .debugRecipientUser u)
      else if nonzeroIntOpt e.chat_id then
        let c := e.chat_id.getD 0
        some (API_BASE_URL ++ API_PATH_MESSAGES ++ "?chat_id=" ++ pyStrInt c ++ "&v=" ++ API_VERSION,
          .debugRecipientChat c)
      else none
    match chosen with
    | none => .ok ⟨log1 ++ [.noRecipientError e.user_id e.chat_id], none⟩
    | some (url, rlog) =>
      let headers := [("Authorization", token), ("Content-Type", "application/json")]
      let payload := [("text", text)]
      let req : Request := ⟨url, headers, payload⟩
      let log2 := log1 ++ [rlog, .debugRequest url text.length]
      match send_try_block url o with
      | .ok l => .ok ⟨log2 ++ l, some req⟩
      | .error (.clientError m) => .ok ⟨log2 ++ [.requestFailedError m], some req⟩
      | .error (.unexpected m) => .ok ⟨log2 ++ [.unexpectedError m], some req⟩

/-- The `SendResult` of a send call (total projection; by
`C3_send_never_raises` the handler always returns `.ok`). -/
def sendResult (e : EntryData) (message : String) (title : Option String)
    (o : HttpOutcome) : SendResult :=
  match async_send_message e message title o with
  | .ok r => r
  | .error _ => ⟨[], none⟩

/-! ## Config flow, from `config_flow.py` -/

/-- The instance fields of `MaxNotifyConfigFlow` used to chain the two
wizard steps (`self._token`, `self._recipient_type`, `self._user_id`,
`self._chat_id`). -/
structure FlowState where
  token : Option String
  recipient_type : Option String
  user_id : Option String
  chat_id : Option String
deriving DecidableEq, Repr

/-- The fresh flow state built by `MaxNotifyConfigFlow.__init__`. -/
def initFlowState : FlowState := ⟨none, none, none, none⟩

/-- The value a wizard step hands back to the host. -/
inductive FlowResult where
  | showForm (stepId : String) (err : Option String)
  | entryCreated (title : String) (uniqueId : String) (data : EntryData)
  | aborted (reason : String)
deriving DecidableEq, Repr

/-- `_validate_token` (lines 30-49 of `config_flow.py`), as a function of
the `GET /me` outcome: `none` on status 200, an error string otherwise.
Every modelled exception is caught inside it. -/
def _validate_token (o : HttpOutcome) : Option String :=
  match o with
  | .response s _ =>
      if s = 200 then none
      else if s = 401 then some "invalid_auth"
      else some "cannot_connect"
  | .clientError _ => some "cannot_connect"
  | .otherExc _ => some "unknown"

/-- Result of one call of `async_step_user`: the flow result, the flow
state afterwards, and whether a `GET /me` request was issued. -/
structure StepUserOut where
  result : FlowResult
  state : FlowState
  httpCalled : Bool
deriving DecidableEq, Repr

/-- `async_step_user` (lines 64-83 of `config_flow.py`).  `input` is the
submitted `access_token` field (`none` models no submission yet); `me`
is the outcome the network would give if `GET /me` were issued. -/
def async_step_user (st : FlowState) (input : Option String) (me : HttpOutcome) :
    StepUserOut :=
  match input with
  | none => ⟨.showForm "user" none, st, false⟩
  | some raw =>
    let tok := pyStrip raw
    let st1 := { st with token := some tok }
    if tok = "" then ⟨.showForm "user" (some "invalid_token"), st1, false⟩
    else
      match _validate_token me with
      | some err => ⟨.showForm "user" (some err), st1, true⟩
      | none => ⟨.showForm "recipient" none, st1, true⟩

/-- The submitted recipient form: the required `recipient_type` select
and the two optional text fields (absent keys default to `""` through
`user_input.get(..., "")`). -/
structure RecipientInput where
  recipient_type : String
  user_id : String
  chat_id : String
deriving DecidableEq, Repr

/-- `_create_entry` (lines 160-178 of `config_flow.py`).  `reg` is the
set of unique ids of already-configured entries; a `none` result models
an uncaught exception from `int(...)` on a missing or non-numeric
stored id (impossible after a successful recipient step).  On success
the created unique id joins the registry; on abort it does not. -/
def _create_entry (st : FlowState) (reg : List String) :
    Option (FlowResult × List String) :=
  let data0 : EntryData := ⟨st.token, st.recipient_type, none, none⟩
  let dataOpt : Option EntryData :=
    if pyTruthyStrOpt st.user_id then
      (pyInt (st.user_id.getD "")).map (fun n => { data0 with user_id := some n })
    else
      match st.chat_id with
      | none => none
      | some c => (pyInt c).map (fun n => { data0 with chat_id := some n })
  match dataOpt with
  | none => none
  | some data =>
    let suffix :=
      if pyTruthyStrOpt st.user_id then st.user_id.getD ""
      else if pyTruthyStrOpt st.chat_id then st.chat_id.getD ""
      else "default"
    let uniqueId := "max_notify_" ++ suffix
    if uniqueId ∈ reg then some (.aborted "already_configured", reg)
    else some (.entryCreated ("Max Notify (" ++ suffix ++ ")") uniqueId data,
      uniqueId :: reg)

/-- `async_step_recipient` (lines 95-142 of `config_flow.py`).  Any
`recipient_type` other than `"user"` takes the chat branch, as in the
source `else`.  Returns the flow result, the state afterwards, and the
updated registry; `none` models an uncaught exception (only possible
inside `_create_entry`, never after this validation). -/
def async_step_recipient (st : FlowState) (input : Option RecipientInput)
    (reg : List String) : Option (FlowResult × FlowState × List String) :=
  match input with
  | none => some (.showForm "recipient" none, st, reg)
  | some inp =>
    let st1 := { st with recipient_type := some inp.recipient_type }
    if inp.recipient_type = RECIPIENT_TYPE_USER then
      let raw := pyStrip inp.user_id
      if raw = "" then some (.showForm "recipient" (some "user_id_required"), st1, reg)
      else
        match pyInt raw with
        | none => some (.showForm "recipient" (some "invalid_user_id"), st1, reg)
        | some uid =>
          if uid ≤ 0 then
            some (.showForm "recipient" (some "invalid_user_id"), st1, reg)
          else
            let st2 := { st1 with user_id := some (pyStrInt uid), chat_id := none }
            (_create_entry st2 reg).map (fun p => (p.1, st2, p.2))
    else
      let raw := pyStrip inp.chat_id
      if raw = "" then some (.showForm "recipient" (some "chat_id_required"), st1, reg)
      else
        match pyInt raw with
        | none => some (.showForm "recipient" (some "invalid_chat_id"), st1, reg)
        | some cid =>
          if cid ≤ 0 then
            some (.showForm "recipient" (some "invalid_chat_id"), st1, reg)
          else
            let st2 := { st1 with chat_id := some (pyStrInt cid), user_id := none }
            (_create_entry st2 reg).map (fun p => (p.1, st2, p.2))

/-! ## Decimal print/parse roundtrip -/

/-- Value of a big-endian digit string. -/
def digitsVal (l : List Char) : Nat := l.foldl (fun a c => 10 * a + digitVal c) 0

lemma digitVal_digitChar (d : Nat) (h : d < 10) : digitVal (Nat.digitChar d) = d := by
  interval_cases d <;> rfl

lemma isAsciiDigit_digitChar (d : Nat) (h : d < 10) : isAsciiDigit (Nat.digitChar d) = true := by
  interval_cases d <;> rfl

lemma natToDigitsRevAux_fuel :
    ∀ fuel fuel' n, n ≤ fuel → n ≤ fuel' →
      natToDigitsRevAux fuel n = natToDigitsRevAux fuel' n := by
  intro fuel
  induction fuel with
  | zero =>
    intro fuel' n h _
    interval_cases n
    cases fuel' <;> rfl
  | succ f ih =>
    intro fuel' n h h'
    cases n with
    | zero => cases fuel' <;> rfl
    | succ m =>
      cases fuel' with
      | zero => omega
      | succ f' =>
        simp only [natToDigitsRevAux]
        congr 1
        exact ih f' ((m + 1) / 10)
          (by have := Nat.div_lt_self (Nat.succ_pos m) (by norm_num : 1 < 10); omega)
          (by have := Nat.div_lt_self (Nat.succ_pos m) (by norm_num : 1 < 10); omega)

lemma natToDigitsRev_succ (m : Nat) :
    natToDigitsRev (m + 1) =
      Nat.digitChar ((m + 1) % 10) :: natToDigitsRev ((m + 1) / 10) := by
  show natToDigitsRevAux (m + 1) (m + 1) = _
  simp only [natToDigitsRevAux]
  congr 1
  exact natToDigitsRevAux_fuel m ((m + 1) / 10) ((m + 1) / 10)
    (by have := Nat.div_lt_self (Nat.succ_pos m) (by norm_num : 1 < 10); omega)
    (Nat.le_refl _)

lemma mem_natToDigitsRev (n : Nat) : ∀ c ∈ natToDigitsRev n, isAsciiDigit c = true := by
  induction n using Nat.strong_induction_on with
  | _ n ih =>
    cases n with
    | zero => intro c hc; simp [natToDigitsRev, natToDigitsRevAux] at hc
    | succ m =>
      intro c hc
      rw [natToDigitsRev_succ] at hc
      rcases List.mem_cons.mp hc with h | h
      · subst h; exact isAsciiDigit_digitChar _ (Nat.mod_lt _ (by norm_num))
      · exact ih ((m + 1) / 10) (Nat.div_lt_self (Nat.succ_pos m) (by norm_num)) c h

lemma digitsVal_append_singleton (l : List Char) (c : Char) :
    digitsVal (l ++ [c]) = 10 * digitsVal l + digitVal c := by
  simp [digitsVal, List.foldl_append]

lemma digitsVal_natToDigitsRev (n : Nat) : digitsVal (natToDigitsRev n).reverse = n := by
  induction n using Nat.strong_induction_on with
  | _ n ih =>
    cases n with
    | zero => rfl
    | succ m =>
      rw [natToDigitsRev_succ, List.reverse_cons, digitsVal_append_singleton,
        ih ((m + 1) / 10) (Nat.div_lt_self (Nat.succ_pos m) (by norm_num)),
        digitVal_digitChar _ (Nat.mod_lt _ (by norm_num))]
      omega

lemma pyDigitsAux_consDigit (acc : Nat) (c : Char) (rest : List Char)
    (hne : ¬(c = '_')) (hc : isAsciiDigit c = true) :
    pyDigitsAux acc (c :: rest) = pyDigitsAux (10 * acc + digitVal c) rest := by
  cases rest with
  | nil => simp [pyDigitsAux, hne, hc]
  | cons c2 r2 => simp [pyDigitsAux, hne, hc]

lemma pyDigitsAux_digits (l : List Char) :
    ∀ acc, (∀ c ∈ l, isAsciiDigit c = true) →
      pyDigitsAux acc l = some (l.foldl (fun a c => 10 * a + digitVal c) acc) := by
  induction l with
  | nil => intro acc _; rfl
  | cons c rest ih =>
    intro acc hall
    have hc : isAsciiDigit c = true := hall c (List.mem_cons_self c rest)
    have hne : ¬(c = '_') := by rintro rfl; exact absurd hc (by decide)
    rw [pyDigitsAux_consDigit acc c rest hne hc, List.foldl_cons]
    exact ih _ (fun x hx => hall x (List.mem_cons_of_mem c hx))

lemma pyDigitpart_digits (c : Char) (rest : List Char)
    (hall : ∀ x ∈ c :: rest, isAsciiDigit x = true) :
    pyDigitpart (c :: rest) = some (digitsVal (c :: rest)) := by
  have hc : isAsciiDigit c = true := hall c (List.mem_cons_self c rest)
  simp only [pyDigitpart, if_pos hc]
  rw [pyDigitsAux_digits rest (digitVal c) (fun x hx => hall x (List.mem_cons_of_mem c hx))]
  simp [digitsVal]

lemma pyInt_pyStrNat (n : Nat) (h : 0 < n) : pyInt (pyStrNat n) = some (n : Int) := by
  obtain ⟨m, rfl⟩ := Nat.exists_eq_succ_of_ne_zero (Nat.pos_iff_ne_zero.mp h)
  have hrev : (natToDigitsRev (m + 1)).reverse ≠ [] := by
    rw [natToDigitsRev_succ]; simp
  obtain ⟨c, rest, hl⟩ := List.exists_cons_of_ne_nil hrev
  have hall : ∀ x ∈ c :: rest, isAsciiDigit x = true := by
    rw [← hl]
    intro x hx
    exact mem_natToDigitsRev (m + 1) x (List.mem_reverse.mp hx)
  have hc : isAsciiDigit c = true := hall c (List.mem_cons_self c rest)
  have hplus : ¬(c = '+') := by rintro rfl; exact absurd hc (by decide)
  have hminus : ¬(c = '-') := by rintro rfl; exact absurd hc (by decide)
  have hdata : (pyStrNat (m + 1)).data = c :: rest := by
    simp only [pyStrNat, if_neg (Nat.succ_ne_zero m)]
    exact hl
  simp only [pyInt, hdata, if_neg hplus, if_neg hminus, pyDigitpart_digits c rest hall]
  rw [← hl, digitsVal_natToDigitsRev]
  rfl

lemma pyInt_pyStrInt (v : Int) (h : 0 < v) : pyInt (pyStrInt v) = some v := by
  have hnn : ¬(v < 0) := by omega
  rw [pyStrInt, if_neg hnn, pyInt_pyStrNat v.toNat (by omega)]
  congr 1
  omega

lemma pyStrInt_ne_empty (v : Int) (h : 0 < v) : pyStrInt v ≠ "" := by
  have hnn : ¬(v < 0) := by omega
  rw [pyStrInt, if_neg hnn, pyStrNat, if_neg (by omega : ¬(v.toNat = 0))]
  intro hcontra
  have : (natToDigitsRev v.toNat).reverse = [] := congrArg String.data hcontra
  obtain ⟨m, hm⟩ := Nat.exists_eq_succ_of_ne_zero (by omega : v.toNat ≠ 0)
  rw [hm, natToDigitsRev_succ] at this
  simp at this

end MaxNotify

namespace MaxNotify

/-- The text actually handed to the HTTP request: the composed text,
hard-truncated at `MAX_MESSAGE_LENGTH` characters (lines 65-69). -/
def sentText (m : String) (t : Option String) : String :=
  if MAX_MESSAGE_LENGTH < (composeText m t).length
  then (composeText m t).take MAX_MESSAGE_LENGTH else composeText m t

lemma async_send_message_isOk (e : EntryData) (m : String) (t : Option String)
    (o : HttpOutcome) : ∃ r, async_send_message e m t o = .ok r := by
  rcases o with ⟨s, b⟩ | msg | msg <;>
  · simp only [async_send_message, send_try_block]
    split_ifs <;> exact ⟨_, rfl⟩

lemma sendResult_request (e : EntryData) (m : String) (t : Option String)
    (o : HttpOutcome) :
    (sendResult e m t o).request =
      if pyTruthyStrOpt e.access_token = false then none
      else if nonzeroIntOpt e.user_id then
        some ⟨API_BASE_URL ++ API_PATH_MESSAGES ++ "?user_id=" ++
            pyStrInt (e.user_id.getD 0) ++ "&v=" ++ API_VERSION,
          [("Authorization", e.access_token.getD ""), ("Content-Type", "application/json")],
          [("text", sentText m t)]⟩
      else if nonzeroIntOpt e.chat_id then
        some ⟨API_BASE_URL ++ API_PATH_MESSAGES ++ "?chat_id=" ++
            pyStrInt (e.chat_id.getD 0) ++ "&v=" ++ API_VERSION,
          [("Authorization", e.access_token.getD ""), ("Content-Type", "application/json")],
          [("text", sentText m t)]⟩
      else none := by
  rcases o with ⟨s, b⟩ | msg | msg <;>
  · simp only [sendResult, async_send_message, send_try_block, sentText]
    split_ifs <;> rfl

lemma truncWarning_logged (e : EntryData) (m : String) (t : Option String)
    (o : HttpOutcome) (h : MAX_MESSAGE_LENGTH < (composeText m t).length) :
    LogEntry.truncWarning (composeText m t).length MAX_MESSAGE_LENGTH ∈
      (sendResult e m t o).log := by
  rcases o with ⟨s, b⟩ | msg | msg <;>
  · simp only [sendResult, async_send_message, send_try_block]
    split_ifs <;> simp_all

end MaxNotify

namespace MaxNotify

lemma noTokenError_logged (e : EntryData) (m : String) (t : Option String)
    (o : HttpOutcome) (h : pyTruthyStrOpt e.access_token = false) :
    LogEntry.noTokenError ∈ (sendResult e m t o).log := by
  rcases o with ⟨s, b⟩ | msg | msg <;>
  · simp only [sendResult, async_send_message, send_try_block]
    split_ifs <;> simp_all

lemma noRecipientError_logged (e : EntryData) (m : String) (t : Option String)
    (o : HttpOutcome) (h1 : pyTruthyStrOpt e.access_token = true)
    (h2 : nonzeroIntOpt e.user_id = false) (h3 : nonzeroIntOpt e.chat_id = false) :
    LogEntry.noRecipientError e.user_id e.chat_id ∈ (sendResult e m t o).log := by
  rcases o with ⟨s, b⟩ | msg | msg <;>
  · simp only [sendResult, async_send_message, send_try_block]
    split_ifs <;> simp_all

/-- C3: for every entry content, message, title, and HTTP outcome
(delivered response of any status, client error, or any other
exception), the send handler returns normally: the `except` clauses of
lines 125-128 catch every exception, so `async_send_message` always
evaluates to `.ok` of its `SendResult`. -/
theorem C3_send_never_raises (e : EntryData) (m : String) (t : Option String)
    (o : HttpOutcome) :
    async_send_message e m t o = Except.ok (sendResult e m t o) := by
  obtain ⟨r, hr⟩ := async_send_message_isOk e m t o
  simp only [sendResult, hr]

/-- C1: whenever the send handler issues a request, the text it sends is
the composition of title and message (title, a newline, then the
message when a title is present and nonempty per the truthiness test of
line 65, else the message alone), truncated to its first 4000
characters exactly when the composition exceeds 4000 characters, in
which case a truncation warning is logged; at or below 4000 characters
the composition is sent unchanged. -/
theorem C1_sent_text_truncation (e : EntryData) (m : String) (t : Option String)
    (o : HttpOutcome) (req : Request)
    (h : (sendResult e m t o).request = some req) :
    req.payload = [("text", sentText m t)] ∧
    (∀ s, ¬(s = "") → composeText m (some s) = s ++ "\n" ++ m) ∧
    composeText m none = m ∧
    (MAX_MESSAGE_LENGTH < (composeText m t).length →
      sentText m t = (composeText m t).take MAX_MESSAGE_LENGTH ∧
      LogEntry.truncWarning (composeText m t).length MAX_MESSAGE_LENGTH ∈
        (sendResult e m t o).log) ∧
    ((composeText m t).length ≤ MAX_MESSAGE_LENGTH → sentText m t = composeText m t) := by
  refine ⟨?_, ?_, ?_, ?_, ?_⟩
  · have hreq := sendResult_request e m t o
    rw [h] at hreq
    split_ifs at hreq <;> simp_all
  · intro s hs; simp [composeText, hs]
  · rfl
  · intro hlen
    exact ⟨by rw [sentText, if_pos hlen], truncWarning_logged e m t o hlen⟩
  · intro hle
    rw [sentText, if_neg (by omega)]

/-- C2 (counterexample): with user id 42 configured, the request URL the
handler builds is the messages endpoint with query string
`user_id=42&v=1.2.5`, which is not the URL whose query string carries
only the recipient id; the claim that the query string carries exactly
the recipient id and nothing else fails because of the appended API
version parameter. -/
theorem C2_query_has_version_param :
    (sendResult ⟨some "tok", some "user", some 42, none⟩ "hi" none
        (.response 200 "ok")).request =
      some ⟨"https://platform-api.max.ru/messages?user_id=42&v=1.2.5",
        [("Authorization", "tok"), ("Content-Type", "application/json")],
        [("text", "hi")]⟩ ∧
    ¬("https://platform-api.max.ru/messages?user_id=42&v=1.2.5" =
      "https://platform-api.max.ru/messages?user_id=42") := by
  exact ⟨by decide, by decide⟩

/-- C2 (amended): every request the send handler issues is a POST to
`https://platform-api.max.ru/messages` whose query string carries the
recipient id (`user_id=` when a non-zero user id is configured, else
`chat_id=`) together with the API version parameter `v=1.2.5`, with
headers Authorization and Content-Type application/json, and a JSON
body whose single key is `text` holding the sent text. -/
theorem C2_request_shape (e : EntryData) (m : String) (t : Option String)
    (o : HttpOutcome) (req : Request)
    (h : (sendResult e m t o).request = some req) :
    req.headers =
      [("Authorization", e.access_token.getD ""), ("Content-Type", "application/json")] ∧
    req.payload = [("text", sentText m t)] ∧
    (nonzeroIntOpt e.user_id = true →
      req.url = API_BASE_URL ++ API_PATH_MESSAGES ++ "?user_id=" ++
        pyStrInt (e.user_id.getD 0) ++ "&v=" ++ API_VERSION) ∧
    (nonzeroIntOpt e.user_id = false →
      req.url = API_BASE_URL ++ API_PATH_MESSAGES ++ "?chat_id=" ++
        pyStrInt (e.chat_id.getD 0) ++ "&v=" ++ API_VERSION) := by
  have hreq := sendResult_request e m t o
  rw [h] at hreq
  split_ifs at hreq with h1 h2 h3 <;> simp_all

/-- C4: a send with no (truthy) access token, or with neither a non-zero
user id nor a non-zero chat id, logs the matching error and returns
without building any request; when a non-zero user id is configured the
request targets it (preferring it over any chat id). -/
theorem C4_missing_config_guards (e : EntryData) (m : String) (t : Option String)
    (o : HttpOutcome) :
    (pyTruthyStrOpt e.access_token = false →
      (sendResult e m t o).request = none ∧
      LogEntry.noTokenError ∈ (sendResult e m t o).log) ∧
    (pyTruthyStrOpt e.access_token = true → nonzeroIntOpt e.user_id = false →
      nonzeroIntOpt e.chat_id = false →
      (sendResult e m t o).request = none ∧
      LogEntry.noRecipientError e.user_id e.chat_id ∈ (sendResult e m t o).log) ∧
    (pyTruthyStrOpt e.access_token = true → nonzeroIntOpt e.user_id = true →
      ∃ req, (sendResult e m t o).request = some req ∧
        req.url = API_BASE_URL ++ API_PATH_MESSAGES ++ "?user_id=" ++
          pyStrInt (e.user_id.getD 0) ++ "&v=" ++ API_VERSION) := by
  refine ⟨?_, ?_, ?_⟩
  · intro h
    refine ⟨?_, noTokenError_logged e m t o h⟩
    rw [sendResult_request, if_pos h]
  · intro h1 h2 h3
    refine ⟨?_, noRecipientError_logged e m t o h1 h2 h3⟩
    rw [sendResult_request]
    simp [h1, h2, h3]
  · intro h1 h2
    have hreq := sendResult_request e m t o
    rw [if_neg (by simp [h1]), if_pos (by simp [h2])] at hreq
    exact ⟨_, hreq, rfl⟩

end MaxNotify

namespace MaxNotify

set_option maxHeartbeats 1000000 in
lemma startDialogHint_mem_iff (e : EntryData) (m : String) (t : Option String)
    (o : HttpOutcome) :
    (LogEntry.startDialogHint ∈ (sendResult e m t o).log ↔
      ∃ req s b, (sendResult e m t o).request = some req ∧ o = .response s b ∧
        s = 403 ∧ strContains b "chatId" = true ∧
        strContains req.url "user_id=" = true) := by
  rcases o with ⟨s, b⟩ | msg | msg <;>
  · simp only [sendResult, async_send_message, send_try_block]
    split_ifs <;> simp_all [and_assoc] <;> (intros; omega)

set_option maxHeartbeats 1000000 in
lemma sendFailedError_logged (e : EntryData) (m : String) (t : Option String)
    (s : Nat) (b : String) (req : Request)
    (h : (sendResult e m t (.response s b)).request = some req) (hs : 400 ≤ s) :
    LogEntry.sendFailedError s (b.take 500) req.url ∈
      (sendResult e m t (.response s b)).log := by
  by_cases h1 : pyTruthyStrOpt e.access_token = false
  · rw [sendResult_request, if_pos h1] at h
    simp at h
  · by_cases h2 : nonzeroIntOpt e.user_id = true
    · have hreq := sendResult_request e m t (.response s b)
      rw [if_neg h1, if_pos h2] at hreq
      have hrq : req = _ := Option.some.inj (h.symm.trans hreq)
      rw [hrq]
      simp only [sendResult, async_send_message, send_try_block]
      split_ifs <;> simp_all
    · by_cases h3 : nonzeroIntOpt e.chat_id = true
      · have hreq := sendResult_request e m t (.response s b)
        rw [if_neg h1, if_neg h2, if_pos h3] at hreq
        have hrq : req = _ := Option.some.inj (h.symm.trans hreq)
        rw [hrq]
        simp only [sendResult, async_send_message, send_try_block]
        split_ifs <;> simp_all
      · rw [sendResult_request, if_neg h1, if_neg h2, if_neg h3] at h
        simp at h

/-- C9: whenever a send receives a response with status at least 400,
the handler logs the failure (status, first 500 characters of the body,
request URL); the informational start-a-dialog hint is logged exactly
when the status is 403, the body contains "chatId", and the request URL
contains "user_id="; in every other situation (no request issued, other
status, client error, or unexpected exception) the hint is absent. -/
theorem C9_start_dialog_hint (e : EntryData) (m : String) (t : Option String)
    (o : HttpOutcome) :
    (∀ req s b, (sendResult e m t o).request = some req → o = .response s b → 400 ≤ s →
      LogEntry.sendFailedError s (b.take 500) req.url ∈ (sendResult e m t o).log ∧
      (LogEntry.startDialogHint ∈ (sendResult e m t o).log ↔
        (s = 403 ∧ strContains b "chatId" = true ∧
          strContains req.url "user_id=" = true))) ∧
    (LogEntry.startDialogHint ∈ (sendResult e m t o).log →
      ∃ req s b, (sendResult e m t o).request = some req ∧ o = .response s b ∧
        s = 403 ∧ strContains b "chatId" = true ∧
        strContains req.url "user_id=" = true) := by
  constructor
  · rintro req s b h rfl hs
    refine ⟨sendFailedError_logged e m t s b req h hs, ?_⟩
    rw [startDialogHint_mem_iff]
    constructor
    · rintro ⟨req', s', b', hreq', heq, h403, hb, hurl⟩
      injection heq with hs' hb'
      subst hs'
      subst hb'
      rw [h] at hreq'
      injection hreq' with hh
      subst hh
      exact ⟨h403, hb, hurl⟩
    · rintro ⟨h403, hb, hurl⟩
      exact ⟨req, s, b, h, rfl, h403, hb, hurl⟩
  · intro hmem
    exact (startDialogHint_mem_iff e m t o).mp hmem

end MaxNotify

namespace MaxNotify

/-- C5: the `/me` validation maps status 200 to success (the token step
then proceeds to the recipient step), status 401 to `invalid_auth`, any
other status and any network-level client error to `cannot_connect`,
and any other exception to `unknown`; on validation failure the token
form is redisplayed with that error. -/
theorem C5_me_validation (st : FlowState) (tok : String) (o : HttpOutcome)
    (h : ¬(pyStrip tok = "")) :
    (∀ b, _validate_token (.response 200 b) = none) ∧
    (∀ b, _validate_token (.response 401 b) = some "invalid_auth") ∧
    (∀ s b, ¬(s = 200) → ¬(s = 401) →
      _validate_token (.response s b) = some "cannot_connect") ∧
    (∀ msg, _validate_token (.clientError msg) = some "cannot_connect") ∧
    (∀ msg, _validate_token (.otherExc msg) = some "unknown") ∧
    (_validate_token o = none →
      (async_step_user st (some tok) o).result = .showForm "recipient" none) ∧
    (∀ err, _validate_token o = some err →
      (async_step_user st (some tok) o).result = .showForm "user" (some err)) := by
  refine ⟨fun b => rfl, fun b => rfl, ?_, fun msg => rfl, fun msg => rfl, ?_, ?_⟩
  · intro s b hs hs'
    simp [_validate_token, hs, hs']
  · intro hv
    simp [async_step_user, h, hv]
  · intro err hv
    simp [async_step_user, h, hv]

/-- C6: a token input that strips to the empty string makes the token
step redisplay the token form with error `invalid_token`, storing the
stripped token, and no `GET /me` request is issued. -/
theorem C6_empty_token (st : FlowState) (tok : String) (o : HttpOutcome)
    (h : pyStrip tok = "") :
    async_step_user st (some tok) o =
      ⟨.showForm "user" (some "invalid_token"), { st with token := some (pyStrip tok) }, false⟩ := by
  simp [async_step_user, h]

/-- C7: in the recipient step, an id field that strips to empty yields
`user_id_required` (resp. `chat_id_required`); an id that does not
parse as an integer, or parses to a value at most zero, yields
`invalid_user_id` (resp. `invalid_chat_id`); in each failure case the
form is redisplayed and no entry is created (the registry of configured
unique ids is unchanged). -/
theorem C7_recipient_validation (st : FlowState) (inp : RecipientInput)
    (reg : List String) :
    (inp.recipient_type = RECIPIENT_TYPE_USER → pyStrip inp.user_id = "" →
      async_step_recipient st (some inp) reg =
        some (.showForm "recipient" (some "user_id_required"),
          { st with recipient_type := some inp.recipient_type }, reg)) ∧
    (inp.recipient_type = RECIPIENT_TYPE_USER → ¬(pyStrip inp.user_id = "") →
      pyInt (pyStrip inp.user_id) = none →
      async_step_recipient st (some inp) reg =
        some (.showForm "recipient" (some "invalid_user_id"),
          { st with recipient_type := some inp.recipient_type }, reg)) ∧
    (∀ v, inp.recipient_type = RECIPIENT_TYPE_USER →
      pyInt (pyStrip inp.user_id) = some v → v ≤ 0 →
      async_step_recipient st (some inp) reg =
        some (.showForm "recipient" (some "invalid_user_id"),
          { st with recipient_type := some inp.recipient_type }, reg)) ∧
    (inp.recipient_type = RECIPIENT_TYPE_CHAT → pyStrip inp.chat_id = "" →
      async_step_recipient st (some inp) reg =
        some (.showForm "recipient" (some "chat_id_required"),
          { st with recipient_type := some inp.recipient_type }, reg)) ∧
    (inp.recipient_type = RECIPIENT_TYPE_CHAT → ¬(pyStrip inp.chat_id = "") →
      pyInt (pyStrip inp.chat_id) = none →
      async_step_recipient st (some inp) reg =
        some (.showForm "recipient" (some "invalid_chat_id"),
          { st with recipient_type := some inp.recipient_type }, reg)) ∧
    (∀ v, inp.recipient_type = RECIPIENT_TYPE_CHAT →
      pyInt (pyStrip inp.chat_id) = some v → v ≤ 0 →
      async_step_recipient st (some inp) reg =
        some (.showForm "recipient" (some "invalid_chat_id"),
          { st with recipient_type := some inp.recipient_type }, reg)) := by
  have hne : ¬(RECIPIENT_TYPE_CHAT = RECIPIENT_TYPE_USER) := by decide
  refine ⟨?_, ?_, ?_, ?_, ?_, ?_⟩
  · intro ht hempty
    simp [async_step_recipient, ht, hempty]
  · intro ht hempty hparse
    simp [async_step_recipient, ht, hempty, hparse]
  · intro v ht hparse hle
    have hempty : ¬(pyStrip inp.user_id = "") := by
      intro hh; rw [hh] at hparse; simp [pyInt] at hparse
    simp [async_step_recipient, ht, hempty, hparse, hle]
  · intro ht hempty
    rw [ht]
    simp [async_step_recipient, hne, hempty, ht]
  · intro ht hempty hparse
    rw [ht]
    simp [async_step_recipient, hne, hempty, hparse, ht]
  · intro v ht hparse hle
    have hempty : ¬(pyStrip inp.chat_id = "") := by
      intro hh; rw [hh] at hparse; simp [pyInt] at hparse
    rw [ht]
    simp [async_step_recipient, hne, hempty, hparse, hle, ht]

end MaxNotify

namespace MaxNotify

lemma _create_entry_canonical_user (st : FlowState) (v : Int) (hv : 0 < v)
    (hu : st.user_id = some (pyStrInt v)) (reg : List String) :
    _create_entry st reg =
      if ("max_notify_" ++ pyStrInt v) ∈ reg then some (.aborted "already_configured", reg)
      else some (.entryCreated ("Max Notify (" ++ pyStrInt v ++ ")")
        ("max_notify_" ++ pyStrInt v)
        ⟨st.token, st.recipient_type, some v, none⟩,
        ("max_notify_" ++ pyStrInt v) :: reg) := by
  have hne := pyStrInt_ne_empty v hv
  have htr : pyTruthyStrOpt (some (pyStrInt v)) = true := by
    simpa [pyTruthyStrOpt] using hne
  simp only [_create_entry, hu, htr, if_true, Option.getD_some, pyInt_pyStrInt v hv,
    Option.map_some]
  rfl

lemma _create_entry_canonical_chat (st : FlowState) (v : Int) (hv : 0 < v)
    (hu : st.user_id = none) (hc : st.chat_id = some (pyStrInt v)) (reg : List String) :
    _create_entry st reg =
      if ("max_notify_" ++ pyStrInt v) ∈ reg then some (.aborted "already_configured", reg)
      else some (.entryCreated ("Max Notify (" ++ pyStrInt v ++ ")")
        ("max_notify_" ++ pyStrInt v)
        ⟨st.token, st.recipient_type, none, some v⟩,
        ("max_notify_" ++ pyStrInt v) :: reg) := by
  have hne := pyStrInt_ne_empty v hv
  have htc : pyTruthyStrOpt (some (pyStrInt v)) = true := by
    simpa [pyTruthyStrOpt] using hne
  have htr : pyTruthyStrOpt (none : Option String) = false := rfl
  simp only [_create_entry, hu, hc, htc, htr, Bool.false_eq_true, if_false, if_true,
    pyInt_pyStrInt v hv, Option.map_some]
  rfl

end MaxNotify

namespace MaxNotify

/-- C8: a valid recipient submission whose id is not yet configured
creates the entry with unique id `max_notify_<id>` and title
`Max Notify (<id>)`; a valid submission whose id is already configured
aborts instead, leaving the registry unchanged (so submitting the same
valid recipient twice yields one entry and one abort, never two entries
or an overwrite). -/
theorem C8_entry_creation_and_duplicate (st : FlowState) (inp : RecipientInput)
    (reg : List String) (v : Int) :
    (inp.recipient_type = RECIPIENT_TYPE_USER → pyInt (pyStrip inp.user_id) = some v →
      0 < v → ¬(("max_notify_" ++ pyStrInt v) ∈ reg) →
      async_step_recipient st (some inp) reg =
        some (.entryCreated ("Max Notify (" ++ pyStrInt v ++ ")")
            ("max_notify_" ++ pyStrInt v)
            ⟨st.token, some inp.recipient_type, some v, none⟩,
          { st with recipient_type := some inp.recipient_type,
                    user_id := some (pyStrInt v), chat_id := none },
          ("max_notify_" ++ pyStrInt v) :: reg)) ∧
    (inp.recipient_type = RECIPIENT_TYPE_USER → pyInt (pyStrip inp.user_id) = some v →
      0 < v → ("max_notify_" ++ pyStrInt v) ∈ reg →
      async_step_recipient st (some inp) reg =
        some (.aborted "already_configured",
          { st with recipient_type := some inp.recipient_type,
                    user_id := some (pyStrInt v), chat_id := none },
          reg)) ∧
    (inp.recipient_type = RECIPIENT_TYPE_CHAT → pyInt (pyStrip inp.chat_id) = some v →
      0 < v → ¬(("max_notify_" ++ pyStrInt v) ∈ reg) →
      async_step_recipient st (some inp) reg =
        some (.entryCreated ("Max Notify (" ++ pyStrInt v ++ ")")
            ("max_notify_" ++ pyStrInt v)
            ⟨st.token, some inp.recipient_type, none, some v⟩,
          { st with recipient_type := some inp.recipient_type,
                    chat_id := some (pyStrInt v), user_id := none },
          ("max_notify_" ++ pyStrInt v) :: reg)) ∧
    (inp.recipient_type = RECIPIENT_TYPE_CHAT → pyInt (pyStrip inp.chat_id) = some v →
      0 < v → ("max_notify_" ++ pyStrInt v) ∈ reg →
      async_step_recipient st (some inp) reg =
        some (.aborted "already_configured",
          { st with recipient_type := some inp.recipient_type,
                    chat_id := some (pyStrInt v), user_id := none },
          reg)) := by
  have hne : ¬(RECIPIENT_TYPE_CHAT = RECIPIENT_TYPE_USER) := by decide
  refine ⟨?_, ?_, ?_, ?_⟩
  · intro ht hparse hv hmem
    have hempty : ¬(pyStrip inp.user_id = "") := by
      intro hh; rw [hh] at hparse; simp [pyInt] at hparse
    have hle : ¬(v ≤ 0) := by omega
    simp only [async_step_recipient, ht, if_pos, hempty, if_neg, hparse, hle]
    rw [_create_entry_canonical_user _ v hv rfl reg, if_neg hmem]
    simp [ht]
  · intro ht hparse hv hmem
    have hempty : ¬(pyStrip inp.user_id = "") := by
      intro hh; rw [hh] at hparse; simp [pyInt] at hparse
    have hle : ¬(v ≤ 0) := by omega
    simp only [async_step_recipient, ht, if_pos, hempty, if_neg, hparse, hle]
    rw [_create_entry_canonical_user _ v hv rfl reg, if_pos hmem]
    simp [ht]
  · intro ht hparse hv hmem
    have hempty : ¬(pyStrip inp.chat_id = "") := by
      intro hh; rw [hh] at hparse; simp [pyInt] at hparse
    have hle : ¬(v ≤ 0) := by omega
    rw [ht]
    simp only [async_step_recipient, hne, ht, if_neg, hempty, hparse, hle]
    rw [_create_entry_canonical_chat _ v hv rfl rfl reg, if_neg hmem]
    simp [ht]
  · intro ht hparse hv hmem
    have hempty : ¬(pyStrip inp.chat_id = "") := by
      intro hh; rw [hh] at hparse; simp [pyInt] at hparse
    have hle : ¬(v ≤ 0) := by omega
    rw [ht]
    simp only [async_step_recipient, hne, ht, if_neg, hempty, hparse, hle]
    rw [_create_entry_canonical_chat _ v hv rfl rfl reg, if_pos hmem]
    simp [ht]

end MaxNotify

namespace MaxNotify

/-- C10: every entry the recipient step creates stores the flow token
(which the token step always records stripped), the submitted recipient
type, and exactly one id — the positive integer parsed from the
submitted text, stored canonically — with the unique id derived from
that integer's canonical decimal form, so different spellings of the
same id (such as "042" and "42") produce identical entries and collide
as duplicates. -/
theorem C10_entry_data_invariant (st : FlowState) (inp : RecipientInput)
    (reg : List String) (title uid : String) (data : EntryData)
    (st' : FlowState) (reg' : List String)
    (h : async_step_recipient st (some inp) reg =
      some (.entryCreated title uid data, st', reg')) :
    data.access_token = st.token ∧
    data.recipient_type = some inp.recipient_type ∧
    (inp.recipient_type = RECIPIENT_TYPE_USER →
      ∃ v, 0 < v ∧ pyInt (pyStrip inp.user_id) = some v ∧ data.user_id = some v ∧
        data.chat_id = none ∧ uid = "max_notify_" ++ pyStrInt v) ∧
    (¬(inp.recipient_type = RECIPIENT_TYPE_USER) →
      ∃ v, 0 < v ∧ pyInt (pyStrip inp.chat_id) = some v ∧ data.chat_id = some v ∧
        data.user_id = none ∧ uid = "max_notify_" ++ pyStrInt v) ∧
    (∀ raw o st0, ((async_step_user st0 (some raw) o).state).token = some (pyStrip raw)) := by
  have htok : ∀ raw (o : HttpOutcome) st0,
      ((async_step_user st0 (some raw) o).state).token = some (pyStrip raw) := by
    intro raw o st0
    simp only [async_step_user]
    split_ifs <;> cases hv : _validate_token o <;> simp
  by_cases ht : inp.recipient_type = RECIPIENT_TYPE_USER
  · by_cases hempty : pyStrip inp.user_id = ""
    · simp [async_step_recipient, ht, hempty] at h
    rcases hp : pyInt (pyStrip inp.user_id) with _ | v
    · simp [async_step_recipient, ht, hempty, hp] at h
    by_cases hle : v ≤ 0
    · simp [async_step_recipient, ht, hempty, hp, hle] at h
    · simp only [async_step_recipient, ht, if_pos, hempty, if_neg, hp, hle] at h
      rw [_create_entry_canonical_user _ v (by omega) rfl reg] at h
      by_cases hmem : ("max_notify_" ++ pyStrInt v) ∈ reg
      · rw [if_pos hmem] at h; simp at h
      · rw [if_neg hmem] at h
        simp at h
        obtain ⟨⟨hT, hU, hD⟩, hst, hreg⟩ := h
        subst hD
        refine ⟨rfl, by rw [ht], fun _ => ⟨v, by omega, rfl, rfl, rfl, hU.symm⟩,
          fun hcontra => absurd ht hcontra, htok⟩
  · by_cases hempty : pyStrip inp.chat_id = ""
    · simp [async_step_recipient, ht, hempty] at h
    rcases hp : pyInt (pyStrip inp.chat_id) with _ | v
    · simp [async_step_recipient, ht, hempty, hp] at h
    by_cases hle : v ≤ 0
    · simp [async_step_recipient, ht, hempty, hp, hle] at h
    · simp only [async_step_recipient, ht, if_neg, hempty, hp, hle] at h
      rw [_create_entry_canonical_chat _ v (by omega) rfl rfl reg] at h
      by_cases hmem : ("max_notify_" ++ pyStrInt v) ∈ reg
      · rw [if_pos hmem] at h; simp at h
      · rw [if_neg hmem] at h
        simp at h
        obtain ⟨⟨hT, hU, hD⟩, hst, hreg⟩ := h
        subst hD
        exact ⟨rfl, rfl, fun hcontra => absurd hcontra ht,
          fun _ => ⟨v, by omega, rfl, rfl, rfl, hU.symm⟩, htok⟩

end MaxNotify

namespace MaxNotify

/-- Witness for C1 at a concrete send: entry with user id 42, message
"hi", title "T"; the issued request's payload is the composed text. -/
theorem C1_sent_text_truncation_witness :
    (⟨"https://platform-api.max.ru/messages?user_id=42&v=1.2.5",
      [("Authorization", "tok"), ("Content-Type", "application/json")],
      [("text", "T\nhi")]⟩ : Request).payload = [("text", sentText "hi" (some "T"))] :=
  (C1_sent_text_truncation ⟨some "tok", some "user", some 42, none⟩ "hi" (some "T")
    (.response 200 "ok")
    ⟨"https://platform-api.max.ru/messages?user_id=42&v=1.2.5",
      [("Authorization", "tok"), ("Content-Type", "application/json")],
      [("text", "T\nhi")]⟩ (by decide)).1

/-- Witness for the amended C2 at a concrete send. -/
theorem C2_request_shape_witness :
    (⟨"https://platform-api.max.ru/messages?user_id=42&v=1.2.5",
      [("Authorization", "tok"), ("Content-Type", "application/json")],
      [("text", "hi")]⟩ : Request).headers =
      [("Authorization", (some "tok").getD ""), ("Content-Type", "application/json")] :=
  (C2_request_shape ⟨some "tok", some "user", some 42, none⟩ "hi" none
    (.response 200 "ok")
    ⟨"https://platform-api.max.ru/messages?user_id=42&v=1.2.5",
      [("Authorization", "tok"), ("Content-Type", "application/json")],
      [("text", "hi")]⟩ (by decide)).1

/-- Witness for C4 at a concrete entry with no access token. -/
theorem C4_missing_config_guards_witness :
    (sendResult ⟨none, some "user", some 42, none⟩ "hi" none
        (.response 200 "ok")).request = none ∧
    LogEntry.noTokenError ∈
      (sendResult ⟨none, some "user", some 42, none⟩ "hi" none
        (.response 200 "ok")).log :=
  (C4_missing_config_guards ⟨none, some "user", some 42, none⟩ "hi" none
    (.response 200 "ok")).1 (by decide)

/-- Witness for C5 at a concrete non-empty token and a 200 response. -/
theorem C5_me_validation_witness :
    (async_step_user initFlowState (some "abc123") (.response 200 "me")).result =
      .showForm "recipient" none :=
  (C5_me_validation initFlowState "abc123" (.response 200 "me")
    (by decide)).2.2.2.2.2.1 rfl

/-- Witness for C6 at a concrete whitespace-only token. -/
theorem C6_empty_token_witness :
    async_step_user initFlowState (some "   ") (.response 200 "me") =
      ⟨.showForm "user" (some "invalid_token"),
        { initFlowState with token := some (pyStrip "   ") }, false⟩ :=
  C6_empty_token initFlowState "   " (.response 200 "me") (by decide)

/-- Witness for C7 at a concrete whitespace-only user id. -/
theorem C7_recipient_validation_witness :
    async_step_recipient initFlowState (some ⟨"user", "  ", ""⟩) [] =
      some (.showForm "recipient" (some "user_id_required"),
        { initFlowState with recipient_type := some "user" }, []) :=
  (C7_recipient_validation initFlowState ⟨"user", "  ", ""⟩ []).1 rfl (by decide)

/-- Witness for C8 at a concrete valid user id 42 and empty registry. -/
theorem C8_entry_creation_and_duplicate_witness :
    async_step_recipient initFlowState (some ⟨"user", "42", ""⟩) [] =
      some (.entryCreated ("Max Notify (" ++ pyStrInt 42 ++ ")")
          ("max_notify_" ++ pyStrInt 42)
          ⟨none, some "user", some 42, none⟩,
        { initFlowState with recipient_type := some "user",
                              user_id := some (pyStrInt 42), chat_id := none },
        ("max_notify_" ++ pyStrInt 42) :: []) :=
  (C8_entry_creation_and_duplicate initFlowState ⟨"user", "42", ""⟩ [] 42).1
    rfl (by decide) (by decide) (by decide)

/-- Witness for C9 at a concrete 403 response whose body mentions
chatId while the request targeted a user id. -/
theorem C9_start_dialog_hint_witness :
    LogEntry.sendFailedError 403 ("err chatId".take 500)
        (⟨"https://platform-api.max.ru/messages?user_id=42&v=1.2.5",
          [("Authorization", "tok"), ("Content-Type", "application/json")],
          [("text", "hi")]⟩ : Request).url ∈
      (sendResult ⟨some "tok", some "user", some 42, none⟩ "hi" none
        (.response 403 "err chatId")).log :=
  ((C9_start_dialog_hint ⟨some "tok", some "user", some 42, none⟩ "hi" none
      (.response 403 "err chatId")).1
    ⟨"https://platform-api.max.ru/messages?user_id=42&v=1.2.5",
      [("Authorization", "tok"), ("Content-Type", "application/json")],
      [("text", "hi")]⟩ 403 "err chatId" (by decide) rfl (by decide)).1

/-- Witness for C10 at the concrete user id spelling "042", which is
canonicalized to 42. -/
theorem C10_entry_data_invariant_witness :
    (⟨none, some "user", some 42, none⟩ : EntryData).access_token =
      initFlowState.token :=
  (C10_entry_data_invariant initFlowState ⟨"user", "042", ""⟩ []
    ("Max Notify (" ++ pyStrInt 42 ++ ")") ("max_notify_" ++ pyStrInt 42)
    ⟨none, some "user", some 42, none⟩
    { initFlowState with recipient_type := some "user",
                          user_id := some (pyStrInt 42), chat_id := none }
    (("max_notify_" ++ pyStrInt 42) :: []) (by decide)).1

end MaxNotify
